import Mathlib

/-!
Shallow embedding of the settings-reconciliation and hotkey-capture subsystem
of the shy-to-text repository.

Sources embedded:
- `src/types.ts` : the `Config`, `GpuDevice`, `LanguageInfo` records.
- `src/unnamed/part_001` (the GPU-enabled `SettingsSection` component):
  `VALID_KEYS`, `keyEventToHotkey`, `handleKeyDown`, `hasChanges`,
  `getLanguageName`, the change-list construction inside `handleApply`,
  the `gpu-fallback` listener.
- `src/handlers.ts` : `saveConfig` (the persistence wrapper that catches
  every error and records it via `setError`).
- `src/unnamed/part_000` (`App.tsx`) : the wiring that shows `saveConfig`
  is the only collaborator `handleApply` calls, and that neither `handleApply`
  nor the `gpu-fallback` listener updates the `config` state owned by `App`.

The component state is modelled by `UIState`: `committed` is the `config`
prop (the value held in `App`'s `useAppState`), `draft` is `pendingConfig`,
`isRecording` is the hotkey-capture flag, and `error` is the `error` state
set through `setError`. Persistence results are passed in explicitly as an
`Except String Unit` value, so a run of `handleApply` is a pure function of
the state and the collaborator's answer.
-/

/-- The persisted settings record, from `src/types.ts` (interface `Config`). -/
structure Config where
  hotkey : String
  language : String
  model_path : Option String
  auto_copy : Bool
  show_notifications : Bool
  use_gpu : Bool
  gpu_device : Nat
deriving DecidableEq, Repr

/-- A GPU device entry, from `src/types.ts` (interface `GpuDevice`). -/
structure GpuDevice where
  id : Nat
  name : String
  device_type : String
  backend : String
deriving DecidableEq, Repr

/-- A supported-language entry, from `src/types.ts` (interface `LanguageInfo`). -/
structure LanguageInfo where
  code : String
  name : String
deriving DecidableEq, Repr

/-- The part of a DOM `KeyboardEvent` read by the capture code: the four
modifier flags, the physical `code`, and the logical `key`. -/
structure KeyEvent where
  ctrlKey : Bool
  altKey : Bool
  shiftKey : Bool
  metaKey : Bool
  code : String
  key : String
deriving DecidableEq, Repr

/-- Models `String.prototype.startsWith` used on `e.code`. -/
def strStartsWith (s p : String) : Bool :=
  List.isPrefixOf p.toList s.toList

/-- Models the JS regular-expression test `^F\d+$` on `e.code`: the letter
`F` followed by one or more digits and nothing else. -/
def fNumTest (s : String) : Bool :=
  strStartsWith s "F" && decide (2 ≤ s.toList.length) && (s.toList.drop 1).all Char.isDigit

/-- The accepted key tokens, from the `VALID_KEYS` set in
`src/unnamed/part_001`, lines 15-65. -/
def VALID_KEYS : List String :=
  ["F1", "F2", "F3", "F4", "F5", "F6", "F7", "F8", "F9", "F10", "F11", "F12",
   "A", "B", "C", "D", "E", "F", "G", "H", "I", "J", "K", "L", "M",
   "N", "O", "P", "Q", "R", "S", "T", "U", "V", "W", "X", "Y", "Z",
   "0", "1", "2", "3", "4", "5", "6", "7", "8", "9", "Space"]

/-- The function-key tokens `F1`..`F12` (the subset of `VALID_KEYS` that the
capture code marks with `isFunctionKey`). -/
def FUNCTION_KEYS : List String :=
  ["F1", "F2", "F3", "F4", "F5", "F6", "F7", "F8", "F9", "F10", "F11", "F12"]

/-- The key-resolution step of `keyEventToHotkey` (`src/unnamed/part_001`,
lines 75-87): maps the physical `e.code` to a candidate key token together
with the `isFunctionKey` flag, or to `none` when no branch assigns a key. -/
def resolveKey (code : String) : Option (String × Bool) :=
  if strStartsWith code "Key" then some (code.drop 3, false)
  else if strStartsWith code "Digit" then some (code.drop 5, false)
  else if strStartsWith code "F" && fNumTest code then some (code, true)
  else if code = "Space" then some ("Space", false)
  else none

/-- The modifier list built by `keyEventToHotkey` (`src/unnamed/part_001`,
lines 68-73): the flags are consulted in the fixed order
Ctrl, Alt, Shift, Super. -/
def modList (e : KeyEvent) : List String :=
  (if e.ctrlKey then ["Ctrl"] else []) ++
  (if e.altKey then ["Alt"] else []) ++
  (if e.shiftKey then ["Shift"] else []) ++
  (if e.metaKey then ["Super"] else [])

/-- `keyEventToHotkey` from `src/unnamed/part_001`, lines 67-98: resolve the
key token, require it to be in `VALID_KEYS`, require a modifier unless it is
a function key, and join modifiers and key with `+`. (In the JS source an
empty resolved token is falsy and short-circuits the `key &&` test; here it
simply fails the `VALID_KEYS` membership test, with the same result.) -/
def keyEventToHotkey (e : KeyEvent) : Option String :=
  match resolveKey e.code with
  | some (key, isFunctionKey) =>
      if VALID_KEYS.contains key then
        if !isFunctionKey && (modList e).isEmpty then none
        else some (String.intercalate "+" (modList e ++ [key]))
      else none
  | none => none

/-- The state of the settings component together with the pieces of `App`
state it manipulates: `committed` is the `config` prop, `draft` is
`pendingConfig`, `isRecording` is the capture flag, `error` is the
App-level error message set through `setError`. -/
structure UIState where
  committed : Config
  draft : Config
  isRecording : Bool
  error : Option String
deriving DecidableEq, Repr

/-- `handleKeyDown` from `src/unnamed/part_001`, lines 131-145: `Escape`
leaves capture mode without touching the draft; an accepted combo is written
into the draft's hotkey field and capture mode ends; a rejected event leaves
everything unchanged (capture mode keeps waiting). -/
def handleKeyDown (e : KeyEvent) (st : UIState) : UIState :=
  if e.key = "Escape" then { st with isRecording := false }
  else
    match keyEventToHotkey e with
    | some hk => { st with draft := { st.draft with hotkey := hk }, isRecording := false }
    | none => st

/-- `hasChanges` from `src/unnamed/part_001`, lines 158-164: the draft
differs from the committed configuration on one of the six tracked fields. -/
def hasChanges (pendingConfig config : Config) : Bool :=
  pendingConfig.hotkey != config.hotkey ||
  pendingConfig.language != config.language ||
  pendingConfig.auto_copy != config.auto_copy ||
  pendingConfig.show_notifications != config.show_notifications ||
  pendingConfig.use_gpu != config.use_gpu ||
  pendingConfig.gpu_device != config.gpu_device

/-- `getLanguageName` from `src/unnamed/part_001`, lines 166-170. -/
def getLanguageName (supportedLanguages : List LanguageInfo) (code : String) : String :=
  if code = "auto" then "Auto-detect"
  else
    match supportedLanguages.find? (fun l => l.code == code) with
    | some lang => lang.name
    | none => code

/-- The display of a GPU device id inside the change list of `handleApply`
(`src/unnamed/part_001`, lines 203-210): the expression
`device?.name ?? id` — the device's name when the id is in the list,
otherwise the raw numeric id. -/
def gpuDeviceDisplay (gpuDevices : List GpuDevice) (id : Nat) : String :=
  match gpuDevices.find? (fun d => d.id == id) with
  | some d => d.name
  | none => toString id

/-- Boolean fields are rendered `On` / `Off` in the change list. -/
def onOff (b : Bool) : String := if b then "On" else "Off"

/-- The `changes` array built by `handleApply` (`src/unnamed/part_001`,
lines 178-211): one line per tracked field that differs, in the fixed order
hotkey, language, auto-copy, notifications, GPU, GPU device. -/
def changeSet (supportedLanguages : List LanguageInfo) (gpuDevices : List GpuDevice)
    (config pendingConfig : Config) : List String :=
  (if pendingConfig.hotkey != config.hotkey then
    ["Hotkey: \"" ++ config.hotkey ++ "\" -> \"" ++ pendingConfig.hotkey ++ "\""]
   else []) ++
  (if pendingConfig.language != config.language then
    ["Language: " ++ getLanguageName supportedLanguages config.language ++ " -> " ++
      getLanguageName supportedLanguages pendingConfig.language]
   else []) ++
  (if pendingConfig.auto_copy != config.auto_copy then
    ["Auto-copy: " ++ onOff config.auto_copy ++ " -> " ++ onOff pendingConfig.auto_copy]
   else []) ++
  (if pendingConfig.show_notifications != config.show_notifications then
    ["Notifications: " ++ onOff config.show_notifications ++ " -> " ++
      onOff pendingConfig.show_notifications]
   else []) ++
  (if pendingConfig.use_gpu != config.use_gpu then
    ["GPU: " ++ onOff config.use_gpu ++ " -> " ++ onOff pendingConfig.use_gpu]
   else []) ++
  (if pendingConfig.gpu_device != config.gpu_device then
    ["GPU Device: " ++ gpuDeviceDisplay gpuDevices config.gpu_device ++ " -> " ++
      gpuDeviceDisplay gpuDevices pendingConfig.gpu_device]
   else [])

/-- A dispatched desktop notification (`sendNotification` payload). -/
structure AppNotification where
  title : String
  body : String
deriving DecidableEq, Repr

/-- `saveConfig` from `src/handlers.ts`, lines 52-62: awaits the
`save_config` backend call, clears the error on success, records
`String(e)` as the error on failure. It catches every error internally and
never rethrows, and it never touches the committed config or the draft. -/
def saveConfig (persistResult : Except String Unit) (st : UIState) : UIState :=
  match persistResult with
  | Except.ok _ => { st with error := none }
  | Except.error e => { st with error := some e }

/-- The observable outcome of one run of `handleApply`: the state afterwards,
the list of configurations handed to the persistence collaborator (in call
order), and the dispatched notification, if any. -/
structure ApplyResult where
  state : UIState
  persisted : List Config
  notif : Option AppNotification
deriving DecidableEq, Repr

/-- `handleApply` from `src/unnamed/part_001`, lines 177-225, composed with
the `saveConfig` wrapper it calls (`src/handlers.ts`, lines 52-62, wired in
`src/unnamed/part_000`): build the change list from the current committed
and draft values, call the persistence collaborator once with the full
draft, then, when the change list is non-empty, dispatch one notification
with the fixed title and the lines joined by newline. Nothing in the source
updates `config` or `pendingConfig` here. -/
def handleApply (supportedLanguages : List LanguageInfo) (gpuDevices : List GpuDevice)
    (persistResult : Except String Unit) (st : UIState) : ApplyResult :=
  let changes := changeSet supportedLanguages gpuDevices st.committed st.draft
  { state := saveConfig persistResult st
    persisted := [st.draft]
    notif :=
      if 0 < changes.length then
        some { title := "Settings Updated", body := String.intercalate "\n" changes }
      else none }

/-- The `gpu-fallback` listener from `src/unnamed/part_001`, lines 120-129:
the freshly fetched configuration (the reply of the `get_config` backend
call) is written into `pendingConfig` only; the `config` state owned by
`App` is not updated anywhere on this path. -/
def gpuFallbackReload (fetched : Config) (st : UIState) : UIState :=
  { st with draft := fetched }

/-- The draft-synchronisation effect from `src/unnamed/part_001`, lines
111-113: whenever the committed `config` prop changes (initial load path in
`useAppState.loadInitialData`), the draft is reset to the new value. -/
def committedChanged (newConfig : Config) (st : UIState) : UIState :=
  { st with committed := newConfig, draft := newConfig }

/-- Sample committed configuration used by concrete instances. -/
def cfgBase : Config :=
  { hotkey := "F9", language := "en", model_path := none, auto_copy := false,
    show_notifications := true, use_gpu := false, gpu_device := 0 }

/-- Sample draft: `cfgBase` with an edited hotkey. -/
def cfgEdited : Config := { cfgBase with hotkey := "F8" }

/-- Sample externally fetched configuration, differing from `cfgBase`. -/
def cfgFetched : Config := { cfgBase with use_gpu := true, gpu_device := 1 }

/-- Sample GPU device with id 1. -/
def devCpu : GpuDevice :=
  { id := 1, name := "CPU-ref", device_type := "cpu", backend := "Vulkan" }

/-- Sample GPU device with id 2. -/
def devRtx : GpuDevice :=
  { id := 2, name := "RTX", device_type := "gpu", backend := "Cuda" }

/-- Sample committed configuration selecting GPU device 1. -/
def cfgGpu1 : Config := { cfgBase with use_gpu := true, gpu_device := 1 }

/-- Sample draft selecting GPU device 2 (differs from `cfgGpu1` only there). -/
def cfgGpu2 : Config := { cfgBase with use_gpu := true, gpu_device := 2 }

/-- C3: `hasChanges` returns `true` exactly when at least one of the six
tracked fields (hotkey, language, auto-copy, notifications, GPU flag, GPU
device) differs between the draft and the committed configuration. -/
theorem hasChanges_iff_tracked_field_differs (pendingConfig config : Config) :
    hasChanges pendingConfig config = true ↔
      (pendingConfig.hotkey ≠ config.hotkey ∨
       pendingConfig.language ≠ config.language ∨
       pendingConfig.auto_copy ≠ config.auto_copy ∨
       pendingConfig.show_notifications ≠ config.show_notifications ∨
       pendingConfig.use_gpu ≠ config.use_gpu ∨
       pendingConfig.gpu_device ≠ config.gpu_device) := by
  simp [hasChanges, or_assoc]

/-- Helper: the four conditional modifier blocks always concatenate to a
sublist of the canonical order `Ctrl, Alt, Shift, Super`. -/
theorem mods_of_flags_sublist (a b c d : Bool) :
    List.Sublist
      ((if a then ["Ctrl"] else []) ++ (if b then ["Alt"] else []) ++
        (if c then ["Shift"] else []) ++ (if d then ["Super"] else []))
      ["Ctrl", "Alt", "Shift", "Super"] := by
  cases a <;> cases b <;> cases c <;> cases d <;> decide

/-- Helper: the modifier list is always a sublist of the canonical order
`Ctrl, Alt, Shift, Super`, so modifiers appear in that fixed order with at
most one occurrence of each. -/
theorem modList_sublist_canonical (e : KeyEvent) :
    List.Sublist (modList e) ["Ctrl", "Alt", "Shift", "Super"] :=
  mods_of_flags_sublist e.ctrlKey e.altKey e.shiftKey e.metaKey

/-- C4: a keyboard event that resolves to a non-function key token (letter,
digit or Space) with an empty modifier set is rejected by `keyEventToHotkey`;
an event that resolves to one of the function keys `F1`..`F12` is accepted
whatever the modifier set is. -/
theorem keyEventToHotkey_modifier_policy (e : KeyEvent) (k : String) :
    (resolveKey e.code = some (k, false) → k ∈ VALID_KEYS → modList e = [] →
      keyEventToHotkey e = none) ∧
    (resolveKey e.code = some (k, true) → k ∈ FUNCTION_KEYS →
      (keyEventToHotkey e).isSome = true) := by
  constructor
  · intro hres _hk hmods
    unfold keyEventToHotkey
    rw [hres]
    simp [hmods]
  · intro hres hk
    have hmem : k ∈ VALID_KEYS := by
      fin_cases hk <;> decide
    unfold keyEventToHotkey
    rw [hres]
    simp [hmem]

/-- C4 witness: `KeyR` without modifiers is rejected; a bare `F9` is
accepted. -/
theorem keyEventToHotkey_modifier_policy_witness :
    keyEventToHotkey ⟨false, false, false, false, "KeyR", "r"⟩ = none ∧
    (keyEventToHotkey ⟨false, false, false, false, "F9", "F9"⟩).isSome = true :=
  ⟨(keyEventToHotkey_modifier_policy ⟨false, false, false, false, "KeyR", "r"⟩ "R").1
      (by decide) (by decide) rfl,
   (keyEventToHotkey_modifier_policy ⟨false, false, false, false, "F9", "F9"⟩ "F9").2
      (by decide) (by decide)⟩

/-- C8: every accepted event produces the modifiers actually present, in the
fixed order `Ctrl, Alt, Shift, Super` (a sublist of that canonical order, so
at most one of each and never reordered), followed by exactly one key token
from the fixed alphabet, all joined by `+`. -/
theorem keyEventToHotkey_canonical_string (e : KeyEvent) (s : String) :
    keyEventToHotkey e = some s →
    ∃ k, VALID_KEYS.contains k = true ∧
      List.Sublist (modList e) ["Ctrl", "Alt", "Shift", "Super"] ∧
      s = String.intercalate "+" (modList e ++ [k]) := by
  intro h
  unfold keyEventToHotkey at h
  rcases hres : resolveKey e.code with _ | ⟨k, isF⟩
  · rw [hres] at h
    simp at h
  · rw [hres] at h
    dsimp only at h
    by_cases hmem : VALID_KEYS.contains k = true
    · rw [if_pos hmem] at h
      by_cases hguard : (!isF && (modList e).isEmpty) = true
      · rw [if_pos hguard] at h
        simp at h
      · rw [if_neg hguard] at h
        exact ⟨k, hmem, modList_sublist_canonical e, (Option.some_inj.mp h).symm⟩
    · rw [if_neg hmem] at h
      simp at h

/-- C8 witness: Ctrl+Shift held with physical key `KeyR` yields
`Ctrl+Shift+R`, which decomposes as required. -/
theorem keyEventToHotkey_canonical_string_witness :
    ∃ k, VALID_KEYS.contains k = true ∧
      List.Sublist (modList ⟨true, false, true, false, "KeyR", "R"⟩)
        ["Ctrl", "Alt", "Shift", "Super"] ∧
      "Ctrl+Shift+R" =
        String.intercalate "+" (modList ⟨true, false, true, false, "KeyR", "R"⟩ ++ [k]) :=
  keyEventToHotkey_canonical_string ⟨true, false, true, false, "KeyR", "R"⟩
    "Ctrl+Shift+R" (by decide)

/-- C9: an `Escape` key event during recording returns the capture state
machine to idle and leaves every other part of the state — in particular the
draft and its hotkey field — unchanged, writing no combo. -/
theorem handleKeyDown_escape_keeps_draft (e : KeyEvent) (st : UIState)
    (_hrec : st.isRecording = true) (hesc : e.key = "Escape") :
    handleKeyDown e st =
      { committed := st.committed, draft := st.draft, isRecording := false,
        error := st.error } := by
  simp [handleKeyDown, hesc]

/-- C9 witness: a concrete `Escape` event in a recording state. -/
theorem handleKeyDown_escape_keeps_draft_witness :
    handleKeyDown ⟨false, false, false, false, "Escape", "Escape"⟩
        ⟨cfgBase, cfgEdited, true, none⟩ =
      ⟨cfgBase, cfgEdited, false, none⟩ :=
  handleKeyDown_escape_keeps_draft ⟨false, false, false, false, "Escape", "Escape"⟩
    ⟨cfgBase, cfgEdited, true, none⟩ rfl rfl

/-- C1 counterexample: with committed `cfgBase` and edited draft `cfgEdited`
and a succeeding persistence call, `handleApply` persists the draft but the
committed configuration afterwards still differs from the draft and the
pending-changes flag is still set; the claim that on success committed is
replaced by the draft and `hasPendingChanges` becomes false is refuted. -/
theorem handleApply_success_counterexample :
    (handleApply [] [] (Except.ok ()) ⟨cfgBase, cfgEdited, false, none⟩).persisted =
      [cfgEdited] ∧
    (handleApply [] [] (Except.ok ()) ⟨cfgBase, cfgEdited, false, none⟩).state.committed ≠
      (handleApply [] [] (Except.ok ()) ⟨cfgBase, cfgEdited, false, none⟩).state.draft ∧
    hasChanges
      (handleApply [] [] (Except.ok ()) ⟨cfgBase, cfgEdited, false, none⟩).state.draft
      (handleApply [] [] (Except.ok ()) ⟨cfgBase, cfgEdited, false, none⟩).state.committed
      = true := by
  refine ⟨rfl, ?_, by decide⟩
  intro h
  exact absurd (congrArg Config.hotkey h) (by decide)

/-- C1 (amended): `handleApply` hands the full draft to the persistence
collaborator in a single call and, on success, clears the error state; but
it leaves both the committed configuration and the draft exactly as they
were, so committed is not replaced by the draft and the pending-changes
flag keeps whatever value the draft/committed pair gave it. -/
theorem handleApply_persists_draft (supportedLanguages : List LanguageInfo)
    (gpuDevices : List GpuDevice) (persistResult : Except String Unit) (st : UIState) :
    (handleApply supportedLanguages gpuDevices persistResult st).persisted = [st.draft] ∧
    (handleApply supportedLanguages gpuDevices persistResult st).state.committed =
      st.committed ∧
    (handleApply supportedLanguages gpuDevices persistResult st).state.draft = st.draft ∧
    (persistResult = Except.ok () →
      (handleApply supportedLanguages gpuDevices persistResult st).state.error = none) := by
  refine ⟨rfl, ?_, ?_, ?_⟩ <;> cases persistResult <;> simp [handleApply, saveConfig]

/-- C1 witness: the amended statement at a concrete state with a succeeding
persistence call. -/
theorem handleApply_persists_draft_witness :
    (handleApply [] [] (Except.ok ()) ⟨cfgBase, cfgEdited, false, none⟩).persisted =
      [cfgEdited] ∧
    (handleApply [] [] (Except.ok ()) ⟨cfgBase, cfgEdited, false, none⟩).state.committed =
      cfgBase ∧
    (handleApply [] [] (Except.ok ()) ⟨cfgBase, cfgEdited, false, none⟩).state.draft =
      cfgEdited ∧
    (handleApply [] [] (Except.ok ()) ⟨cfgBase, cfgEdited, false, none⟩).state.error =
      none := by
  have h := handleApply_persists_draft [] [] (Except.ok ())
    ⟨cfgBase, cfgEdited, false, none⟩
  exact ⟨h.1, h.2.1, h.2.2.1, h.2.2.2 rfl⟩

/-- C2 counterexample: a `gpu-fallback` reload with fetched configuration
`cfgFetched` into a state whose committed value is `cfgBase` resets the
draft to the fetched value, but the committed configuration afterwards is
unchanged and differs from the draft; the claim that draft and committed
agree after the reload is refuted. -/
theorem gpuFallbackReload_counterexample :
    (gpuFallbackReload cfgFetched ⟨cfgBase, cfgEdited, false, none⟩).draft = cfgFetched ∧
    (gpuFallbackReload cfgFetched ⟨cfgBase, cfgEdited, false, none⟩).committed ≠
      (gpuFallbackReload cfgFetched ⟨cfgBase, cfgEdited, false, none⟩).draft := by
  refine ⟨rfl, ?_⟩
  intro h
  exact absurd (congrArg Config.use_gpu h) (by decide)

/-- C2 (amended): on a `gpu-fallback` event the committed configuration is
re-fetched from the backend and the freshly fetched value replaces the
draft, discarding every unsaved draft edit; the component's committed
configuration is left unchanged by this path, so draft and committed agree
afterwards only if the fetched value equals the previously committed one. -/
theorem gpuFallbackReload_resets_draft (fetched : Config) (st : UIState) :
    (gpuFallbackReload fetched st).draft = fetched ∧
    (gpuFallbackReload fetched st).committed = st.committed ∧
    (gpuFallbackReload fetched st).isRecording = st.isRecording ∧
    (gpuFallbackReload fetched st).error = st.error :=
  ⟨rfl, rfl, rfl, rfl⟩

/-- C6: when the persistence call fails, `handleApply` leaves the committed
configuration and the draft unchanged (no edits are lost), records the
failure message in the visible error state, and makes exactly one
persistence attempt (no automatic retry). -/
theorem handleApply_failure_keeps_state (supportedLanguages : List LanguageInfo)
    (gpuDevices : List GpuDevice) (msg : String) (st : UIState) :
    (handleApply supportedLanguages gpuDevices (Except.error msg) st).state.committed =
      st.committed ∧
    (handleApply supportedLanguages gpuDevices (Except.error msg) st).state.draft =
      st.draft ∧
    (handleApply supportedLanguages gpuDevices (Except.error msg) st).state.error =
      some msg ∧
    (handleApply supportedLanguages gpuDevices (Except.error msg) st).persisted =
      [st.draft] :=
  ⟨rfl, rfl, rfl, rfl⟩

/-- Helper: reassociation of a five-chunk string concatenation, used to read
off the `label: old -> new` decomposition of the quoted hotkey line. -/
theorem five_chunk (L S q m x y : String) :
    L ++ S ++ (q ++ x ++ q) ++ m ++ (q ++ y ++ q) =
      ((L ++ S ++ q) ++ x) ++ (q ++ m ++ q) ++ y ++ q := by
  simp [String.append_assoc]

/-- Helper: the change list is empty exactly when `hasChanges` is false,
i.e. when draft and committed agree on all six tracked fields. -/
theorem changeSet_nil_iff (supportedLanguages : List LanguageInfo)
    (gpuDevices : List GpuDevice) (config pendingConfig : Config) :
    changeSet supportedLanguages gpuDevices config pendingConfig = [] ↔
      hasChanges pendingConfig config = false := by
  cases h1 : pendingConfig.hotkey != config.hotkey <;>
  cases h2 : pendingConfig.language != config.language <;>
  cases h3 : pendingConfig.auto_copy != config.auto_copy <;>
  cases h4 : pendingConfig.show_notifications != config.show_notifications <;>
  cases h5 : pendingConfig.use_gpu != config.use_gpu <;>
  cases h6 : pendingConfig.gpu_device != config.gpu_device <;>
  simp [changeSet, hasChanges, h1, h2, h3, h4, h5, h6]

/-- C5: the change list is empty exactly when the draft equals the committed
configuration on the tracked fields; an empty change list dispatches no
notification, and a non-empty one dispatches exactly one notification with
the fixed title whose body is the change lines joined by newline; every
change line has the shape `label: old -> new`. -/
theorem handleApply_notification_spec (supportedLanguages : List LanguageInfo)
    (gpuDevices : List GpuDevice) (persistResult : Except String Unit) (st : UIState) :
    (changeSet supportedLanguages gpuDevices st.committed st.draft = [] →
      (handleApply supportedLanguages gpuDevices persistResult st).notif = none) ∧
    (changeSet supportedLanguages gpuDevices st.committed st.draft ≠ [] →
      (handleApply supportedLanguages gpuDevices persistResult st).notif =
        some { title := "Settings Updated",
               body := String.intercalate "\n"
                 (changeSet supportedLanguages gpuDevices st.committed st.draft) }) ∧
    (changeSet supportedLanguages gpuDevices st.committed st.draft = [] ↔
      hasChanges st.draft st.committed = false) ∧
    (∀ line ∈ changeSet supportedLanguages gpuDevices st.committed st.draft,
      ∃ lab oldDisp newDisp, line = lab ++ ": " ++ oldDisp ++ " -> " ++ newDisp) := by
  refine ⟨?_, ?_, changeSet_nil_iff supportedLanguages gpuDevices st.committed st.draft, ?_⟩
  · intro h
    simp [handleApply, h]
  · intro h
    have hlen : 0 < (changeSet supportedLanguages gpuDevices st.committed st.draft).length :=
      List.length_pos.mpr h
    simp [handleApply, hlen]
  · intro line hline
    simp only [changeSet, List.mem_append] at hline
    rcases hline with ((((h | h) | h) | h) | h) | h
    · split at h
      · simp only [List.mem_singleton] at h
        subst h
        exact ⟨"Hotkey", "\"" ++ st.committed.hotkey ++ "\"", "\"" ++ st.draft.hotkey ++ "\"",
          (five_chunk "Hotkey" ": " "\"" " -> " st.committed.hotkey st.draft.hotkey).symm⟩
      · simp at h
    · split at h
      · simp only [List.mem_singleton] at h
        subst h
        exact ⟨"Language", getLanguageName supportedLanguages st.committed.language,
          getLanguageName supportedLanguages st.draft.language, rfl⟩
      · simp at h
    · split at h
      · simp only [List.mem_singleton] at h
        subst h
        exact ⟨"Auto-copy", onOff st.committed.auto_copy, onOff st.draft.auto_copy, rfl⟩
      · simp at h
    · split at h
      · simp only [List.mem_singleton] at h
        subst h
        exact ⟨"Notifications", onOff st.committed.show_notifications,
          onOff st.draft.show_notifications, rfl⟩
      · simp at h
    · split at h
      · simp only [List.mem_singleton] at h
        subst h
        exact ⟨"GPU", onOff st.committed.use_gpu, onOff st.draft.use_gpu, rfl⟩
      · simp at h
    · split at h
      · simp only [List.mem_singleton] at h
        subst h
        exact ⟨"GPU Device", gpuDeviceDisplay gpuDevices st.committed.gpu_device,
          gpuDeviceDisplay gpuDevices st.draft.gpu_device, rfl⟩
      · simp at h

/-- C5 witness: identical configurations give no notification; a hotkey-only
edit gives exactly one notification with the fixed title. -/
theorem handleApply_notification_spec_witness :
    (handleApply [] [] (Except.ok ()) ⟨cfgBase, cfgBase, false, none⟩).notif = none ∧
    (handleApply [] [] (Except.ok ()) ⟨cfgBase, cfgEdited, false, none⟩).notif =
      some { title := "Settings Updated",
             body := String.intercalate "\n" (changeSet [] [] cfgBase cfgEdited) } :=
  ⟨(handleApply_notification_spec [] [] (Except.ok ())
      ⟨cfgBase, cfgBase, false, none⟩).1 (by decide),
   (handleApply_notification_spec [] [] (Except.ok ())
      ⟨cfgBase, cfgEdited, false, none⟩).2.1 (by decide)⟩

/-- C7 counterexample: with the device list `[devCpu, devRtx]` (backends
`Vulkan` and `Cuda`) and configurations differing only in `gpu_device`
(1 versus 2), the rendered change line shows the bare device names, not the
claimed `name (backend)` form. -/
theorem changeSet_gpu_backend_counterexample :
    changeSet [] [devCpu, devRtx] cfgGpu1 cfgGpu2 = ["GPU Device: CPU-ref -> RTX"] ∧
    "GPU Device: CPU-ref -> RTX" ≠ "GPU Device: CPU-ref (Vulkan) -> RTX (Cuda)" := by
  constructor
  · decide
  · decide

/-- C7 (amended): when the drafts differ in `gpu_device`, the change list
contains the line rendering both ids through `gpuDeviceDisplay`, which shows
the device's name when the id is found in the device list and falls back to
the raw numeric id when it is not. -/
theorem changeSet_gpu_device_rendering (supportedLanguages : List LanguageInfo)
    (gpuDevices : List GpuDevice) (config pendingConfig : Config)
    (h : pendingConfig.gpu_device ≠ config.gpu_device) :
    ("GPU Device: " ++ gpuDeviceDisplay gpuDevices config.gpu_device ++ " -> " ++
        gpuDeviceDisplay gpuDevices pendingConfig.gpu_device) ∈
      changeSet supportedLanguages gpuDevices config pendingConfig ∧
    (∀ id d, gpuDevices.find? (fun d2 => d2.id == id) = some d →
      gpuDeviceDisplay gpuDevices id = d.name) ∧
    (∀ id, gpuDevices.find? (fun d2 => d2.id == id) = none →
      gpuDeviceDisplay gpuDevices id = toString id) := by
  refine ⟨?_, ?_, ?_⟩
  · have hb : (pendingConfig.gpu_device != config.gpu_device) = true := by
      simpa using h
    simp only [changeSet, List.mem_append]
    right
    rw [if_pos hb]
    exact List.mem_singleton.mpr rfl
  · intro id d hf
    simp [gpuDeviceDisplay, hf]
  · intro id hf
    simp [gpuDeviceDisplay, hf]

/-- C7 witness: the amended rendering at the concrete device list, with a
found id on each side. -/
theorem changeSet_gpu_device_rendering_witness :
    ("GPU Device: " ++ gpuDeviceDisplay [devCpu, devRtx] 1 ++ " -> " ++
        gpuDeviceDisplay [devCpu, devRtx] 2) ∈
      changeSet [] [devCpu, devRtx] cfgGpu1 cfgGpu2 :=
  (changeSet_gpu_device_rendering [] [devCpu, devRtx] cfgGpu1 cfgGpu2 (by decide)).1

/-- C10: when the change list is non-empty and the persistence call fails,
the notification is still dispatched — `saveConfig` records the failure in
the visible error state instead of rethrowing, so the notification step
after the save is always reached. -/
theorem handleApply_notifies_despite_failure (supportedLanguages : List LanguageInfo)
    (gpuDevices : List GpuDevice) (msg : String) (st : UIState)
    (h : changeSet supportedLanguages gpuDevices st.committed st.draft ≠ []) :
    (handleApply supportedLanguages gpuDevices (Except.error msg) st).notif =
      some { title := "Settings Updated",
             body := String.intercalate "\n"
               (changeSet supportedLanguages gpuDevices st.committed st.draft) } ∧
    (handleApply supportedLanguages gpuDevices (Except.error msg) st).state.error =
      some msg := by
  constructor
  · have hlen : 0 < (changeSet supportedLanguages gpuDevices st.committed st.draft).length :=
      List.length_pos.mpr h
    simp [handleApply, hlen]
  · rfl

/-- C10 witness: a hotkey edit still produces the notification when the
persistence call fails, and the failure is recorded. -/
theorem handleApply_notifies_despite_failure_witness :
    (handleApply [] [] (Except.error "disk full") ⟨cfgBase, cfgEdited, false, none⟩).notif =
      some { title := "Settings Updated",
             body := String.intercalate "\n" (changeSet [] [] cfgBase cfgEdited) } ∧
    (handleApply [] [] (Except.error "disk full")
        ⟨cfgBase, cfgEdited, false, none⟩).state.error = some "disk full" :=
  handleApply_notifies_despite_failure [] [] "disk full"
    ⟨cfgBase, cfgEdited, false, none⟩ (by decide)
